import Mathlib

/-!
# Verification of the plann test scripts

Shallow embedding of the three Python scripts of the repository:
`backend_test.py`, `detailed_422_investigation.py`, `frontend_simulation_test.py`.

The scripts are HTTP test clients; the remote service is external input, so it
is modelled by an *oracle* that maps each attempted request (indexed by its
position in the sequence of attempts) to either a transport-level exception
(the `Except.error` case, carrying `str(e)` of the Python exception) or an
`HResp` response.  Response bodies are abstracted by the projections the
scripts actually use: whether `response.json()` succeeds, the `detail` field
(when it is a string), the `access_token` field, the array length used by
`len(response.json())`, and the raw `response.text`.

Python `dict` payload literals are modelled as association lists in the
source's key order; payload literals that reference module-level names are
built through an explicit resolver over the module's global namespace, because
`backend_test.py` references names (`TEST_USER_FULL_NAME`, `TEST_ORG_NAME`,
`TEST_STAFF_EMAIL`, `TEST_STAFF_PASSWORD`, `TEST_STAFF_FULL_NAME`) that the
module never defines, so building such a payload raises `NameError`.
Timestamps (`datetime.now()`) and console printing are not modelled, as no
claim depends on them.
-/

set_option autoImplicit false

/-- A Python value as it occurs in the scripts' JSON payloads:
a string, a non-negative integer literal, or `None`. -/
inductive PyVal where
  | vstr (s : String)
  | vint (n : Nat)
  | vnone
deriving DecidableEq, Repr

/-- Abstraction of an HTTP response body by the projections the scripts use.
`jsonOk` tells whether `response.json()` parses; `detail` is the `detail`
field when present as a string; `accessToken` is the `access_token` field;
`arrLen` is `len(response.json())` when the body is used as an array. -/
structure Body where
  jsonOk : Bool
  detail : Option String
  accessToken : Option String
  arrLen : Nat
deriving DecidableEq, Repr

/-- An HTTP response: status code, abstracted body, and raw text. -/
structure HResp where
  status : Nat
  body : Body
  text : String
deriving DecidableEq, Repr

/-- An attempted HTTP request: method, URL, effective headers, and the
`json=` or `data=` keyword argument of `requests`. -/
structure Request where
  meth : String
  url : String
  headers : List (String × String)
  jsonBody : Option (List (String × PyVal))
  formBody : Option (List (String × String))
deriving DecidableEq, Repr

/-- The remote service: given the index of the attempt (how many requests this
script attempted before) and the request, either a transport exception message
or a response.  Indexing by attempt lets distinct calls to the same endpoint
receive distinct answers, as with a real nondeterministic server. -/
def Oracle : Type := Nat → Request → Except String HResp

/-- `response.json()`: succeeds with the abstracted body iff the body parses as
JSON; otherwise raises (message abbreviating Python's JSONDecodeError text). -/
def jsonOf (r : HResp) : Except String Body :=
  if r.body.jsonOk then .ok r.body else .error "Expecting value"

/-- Python `str()` of an optional string: `str(None) = "None"`. -/
def pyStr : Option String → String
  | some s => s
  | none => "None"

/-- `listIsPre n l`: `n` is a prefix of `l` (Boolean, on characters). -/
def listIsPre : List Char → List Char → Bool
  | [], _ => true
  | _ :: _, [] => false
  | a :: as, b :: bs => a == b && listIsPre as bs

/-- `listHasSub n l`: `n` occurs as a contiguous sublist of `l`. -/
def listHasSub (n : List Char) : List Char → Bool
  | [] => listIsPre n []
  | b :: bs => listIsPre n (b :: bs) || listHasSub n bs

/-- Python's `needle in hay` on strings. -/
def pyIn (needle hay : String) : Bool :=
  listHasSub needle.toList hay.toList

/-- Delete a header key (Python `del headers[k]`, and the complement used by
header-merging). -/
def delHeader (hs : List (String × String)) (k : String) : List (String × String) :=
  hs.filter (fun p => p.1 != k)

/-- `session.headers.update({k: v})`: set a header key. -/
def setHeader (hs : List (String × String)) (k v : String) : List (String × String) :=
  delHeader hs k ++ [(k, v)]

/-- `requests` merging of session headers with a per-call `headers=` argument:
per-call entries override session entries. -/
def mergeHeaders (session extra : List (String × String)) : List (String × String) :=
  session.filter (fun p => (List.lookup p.1 extra).isNone) ++ extra

/-- The Python exceptions raised by the scripts' own code (as opposed to
transport exceptions, which the oracle produces). -/
inductive PyErr where
  | nameError (n : String)
deriving DecidableEq, Repr

/-- `str(e)` of a `PyErr`.  Python renders a NameError as
`name 'X' is not defined`; the quotes around the name are omitted here. -/
def PyErr.msg : PyErr → String
  | .nameError n => "name " ++ n ++ " is not defined"

/-- The `BASE_URL` constant, identical in all three scripts. -/
def BASE_URL : String := "https://plannapp.preview.emergentagent.com/api"

/-- A payload field is either a literal or a reference to a module-level name,
resolved at dict-construction time. -/
inductive FieldSrc where
  | lit (v : PyVal)
  | var (n : String)
deriving DecidableEq, Repr

namespace BackendTest

/-! ## `backend_test.py` -/

/-- `TEST_USER_EMAIL` (line 14). -/
def TEST_USER_EMAIL : String := "test@test.com"

/-- `TEST_USER_PASSWORD` (line 15). -/
def TEST_USER_PASSWORD : String := "test123"

/-- The module's global namespace: the only assignments in the module are
`BASE_URL`, `TEST_USER_EMAIL` and `TEST_USER_PASSWORD` (lines 13-15). -/
def moduleVars : List (String × String) :=
  [("BASE_URL", BASE_URL),
   ("TEST_USER_EMAIL", TEST_USER_EMAIL),
   ("TEST_USER_PASSWORD", TEST_USER_PASSWORD)]

/-- Python name lookup in the module namespace; an unknown name raises
`NameError`. -/
def evalName (n : String) : Except PyErr String :=
  match List.lookup n moduleVars with
  | some v => .ok v
  | none => .error (.nameError n)

/-- Build a payload dict literal: values are evaluated left to right and the
first unresolved name reference raises. -/
def resolveFields : List (String × FieldSrc) → Except PyErr (List (String × PyVal))
  | [] => .ok []
  | (k, .lit v) :: rest => (resolveFields rest).map (fun r => (k, v) :: r)
  | (k, .var n) :: rest =>
    match evalName n with
    | .error e => .error e
    | .ok s => (resolveFields rest).map (fun r => (k, .vstr s) :: r)

/-- Build a list of payload dict literals (as in `test_cases = [...]`). -/
def resolveCaseList : List (List (String × FieldSrc)) → Except PyErr (List (List (String × PyVal)))
  | [] => .ok []
  | c :: rest =>
    match resolveFields c with
    | .error e => .error e
    | .ok p => (resolveCaseList rest).map (fun r => p :: r)

/-- One entry of `self.test_results` (`log_test`, lines 25-31; the
`timestamp` field is not modelled). -/
structure TestResult where
  test : String
  success : Bool
  details : String
  response_data : Option (Sum Body String)
deriving DecidableEq, Repr

/-- The `BackendTester` state: session headers, `auth_token`,
`test_results`, plus the (ghost) list of attempted requests, used to state
which HTTP calls a run performs. -/
structure TState where
  headers : List (String × String)
  auth_token : Option String
  test_results : List TestResult
  sent : List Request
deriving DecidableEq, Repr

/-- `BackendTester.__init__`: fresh session (its default headers are
abstracted away; the scripts only ever read and write `Authorization`),
no token, no results. -/
def init : TState :=
  { headers := [], auth_token := none, test_results := [], sent := [] }

/-- `log_test` (lines 23-36): append one result record. -/
def log_test (s : TState) (test : String) (success : Bool) (details : String)
    (rdata : Option (Sum Body String)) : TState :=
  { s with test_results := s.test_results ++ [⟨test, success, details, rdata⟩] }

/-- A `self.session.post/get` call: the request carries the session headers,
is recorded as attempted, and the oracle answers or raises. -/
def sessionReq (o : Oracle) (s : TState) (meth url : String)
    (jsonBody : Option (List (String × PyVal)))
    (formBody : Option (List (String × String))) :
    (Except String HResp) × TState :=
  let req : Request := ⟨meth, url, s.headers, jsonBody, formBody⟩
  (o s.sent.length req, { s with sent := s.sent ++ [req] })

/-- The payload dict of `test_register_user` (lines 41-46); `TEST_USER_FULL_NAME`
and `TEST_ORG_NAME` are not in `moduleVars`. -/
def registerFields : List (String × FieldSrc) :=
  [("username", .var "TEST_USER_EMAIL"),
   ("password", .var "TEST_USER_PASSWORD"),
   ("full_name", .var "TEST_USER_FULL_NAME"),
   ("organization_name", .var "TEST_ORG_NAME")]

/-- `test_register_user` (lines 38-68). -/
def test_register_user (o : Oracle) (s : TState) : Bool × TState :=
  match resolveFields registerFields with
  | .error e => (false, log_test s "User Registration" false ("Exception: " ++ e.msg) none)
  | .ok payload =>
    let (rr, s1) := sessionReq o s "POST" (BASE_URL ++ "/register") (some payload) none
    match rr with
    | .error e => (false, log_test s1 "User Registration" false ("Exception: " ++ e) none)
    | .ok resp =>
      if resp.status = 200 then
        (true, log_test s1 "User Registration" true "Successfully registered new user" none)
      else if resp.status = 400 then
        match jsonOf resp with
        | .error e => (false, log_test s1 "User Registration" false ("Exception: " ++ e) none)
        | .ok body =>
          if pyIn "already registered" (body.detail.getD "") then
            (true, log_test s1 "User Registration" true "User already exists (expected)" none)
          else
            (false, log_test s1 "User Registration" false
              ("Registration failed: " ++ pyStr body.detail) (some (.inl body)))
      else
        match jsonOf resp with
        | .error e => (false, log_test s1 "User Registration" false ("Exception: " ++ e) none)
        | .ok body =>
          (false, log_test s1 "User Registration" false
            ("HTTP " ++ toString resp.status) (some (.inl body)))

/-- The login request of `test_login` (lines 74-79), sent from state `s`. -/
def loginReqB (s : TState) : Request :=
  ⟨"POST", BASE_URL ++ "/token", s.headers, none,
   some [("username", TEST_USER_EMAIL), ("password", TEST_USER_PASSWORD)]⟩

/-- The request of `test_get_users` (line 98), sent from state `s`. -/
def usersReq (s : TState) : Request :=
  ⟨"GET", BASE_URL ++ "/users", s.headers, none, none⟩

/-- `test_login` (lines 70-93): form-encoded `POST /token`; on 200, store the
token and set the session `Authorization` header (the f-string renders a
missing token as `None`). -/
def test_login (o : Oracle) (s : TState) : Bool × TState :=
  let payload := [("username", TEST_USER_EMAIL), ("password", TEST_USER_PASSWORD)]
  let (rr, s1) := sessionReq o s "POST" (BASE_URL ++ "/token") none (some payload)
  match rr with
  | .error e => (false, log_test s1 "User Login" false ("Exception: " ++ e) none)
  | .ok resp =>
    if resp.status = 200 then
      match jsonOf resp with
      | .error e => (false, log_test s1 "User Login" false ("Exception: " ++ e) none)
      | .ok body =>
        let tok := body.accessToken
        let s2 := { s1 with auth_token := tok,
                            headers := setHeader s1.headers "Authorization" ("Bearer " ++ pyStr tok) }
        (true, log_test s2 "User Login" true "Successfully obtained JWT token" none)
    else
      match jsonOf resp with
      | .error e => (false, log_test s1 "User Login" false ("Exception: " ++ e) none)
      | .ok body =>
        (false, log_test s1 "User Login" false ("HTTP " ++ toString resp.status) (some (.inl body)))

/-- `test_get_users` (lines 95-113). -/
def test_get_users (o : Oracle) (s : TState) : Bool × TState :=
  let (rr, s1) := sessionReq o s "GET" (BASE_URL ++ "/users") none none
  match rr with
  | .error e => (false, log_test s1 "Get Users" false ("Exception: " ++ e) none)
  | .ok resp =>
    if resp.status = 200 then
      match jsonOf resp with
      | .error e => (false, log_test s1 "Get Users" false ("Exception: " ++ e) none)
      | .ok body =>
        (true, log_test s1 "Get Users" true ("Retrieved " ++ toString body.arrLen ++ " users") none)
    else if resp.status = 401 then
      match jsonOf resp with
      | .error e => (false, log_test s1 "Get Users" false ("Exception: " ++ e) none)
      | .ok body =>
        (false, log_test s1 "Get Users" false "Authentication failed - invalid token" (some (.inl body)))
    else
      match jsonOf resp with
      | .error e => (false, log_test s1 "Get Users" false ("Exception: " ++ e) none)
      | .ok body =>
        (false, log_test s1 "Get Users" false ("HTTP " ++ toString resp.status) (some (.inl body)))

/-- The payload dict of `test_add_staff_valid_data` (lines 118-122); none of
the three staff constants is defined in the module. -/
def staffValidFields : List (String × FieldSrc) :=
  [("username", .var "TEST_STAFF_EMAIL"),
   ("password", .var "TEST_STAFF_PASSWORD"),
   ("full_name", .var "TEST_STAFF_FULL_NAME")]

/-- `test_add_staff_valid_data` (lines 115-148). -/
def test_add_staff_valid_data (o : Oracle) (s : TState) : Bool × TState :=
  match resolveFields staffValidFields with
  | .error e => (false, log_test s "Add Staff - Valid Data" false ("Exception: " ++ e.msg) none)
  | .ok payload =>
    let (rr, s1) := sessionReq o s "POST" (BASE_URL ++ "/staff/add") (some payload) none
    match rr with
    | .error e => (false, log_test s1 "Add Staff - Valid Data" false ("Exception: " ++ e) none)
    | .ok resp =>
      if resp.status = 200 then
        match jsonOf resp with
        | .error e => (false, log_test s1 "Add Staff - Valid Data" false ("Exception: " ++ e) none)
        | .ok body =>
          (true, log_test s1 "Add Staff - Valid Data" true "Successfully added staff member"
            (some (.inl body)))
      else if resp.status = 422 then
        match jsonOf resp with
        | .error e => (false, log_test s1 "Add Staff - Valid Data" false ("Exception: " ++ e) none)
        | .ok body =>
          (false, log_test s1 "Add Staff - Valid Data" false "422 Validation Error"
            (some (.inl body)))
      else if resp.status = 400 then
        match jsonOf resp with
        | .error e => (false, log_test s1 "Add Staff - Valid Data" false ("Exception: " ++ e) none)
        | .ok body =>
          if pyIn "already registered" (body.detail.getD "") then
            (true, log_test s1 "Add Staff - Valid Data" true "Staff already exists (expected)" none)
          else
            (false, log_test s1 "Add Staff - Valid Data" false
              ("400 Error: " ++ pyStr body.detail) (some (.inl body)))
      else
        match jsonOf resp with
        | .error e => (false, log_test s1 "Add Staff - Valid Data" false ("Exception: " ++ e) none)
        | .ok body =>
          (false, log_test s1 "Add Staff - Valid Data" false
            ("HTTP " ++ toString resp.status) (some (.inl body)))

/-- The four payload variants of `test_add_staff_missing_fields`
(lines 152-157). -/
def missingFieldsCases : List (List (String × FieldSrc)) :=
  [[("username", .var "TEST_STAFF_EMAIL"), ("password", .var "TEST_STAFF_PASSWORD")],
   [("username", .var "TEST_STAFF_EMAIL"), ("full_name", .var "TEST_STAFF_FULL_NAME")],
   [("password", .var "TEST_STAFF_PASSWORD"), ("full_name", .var "TEST_STAFF_FULL_NAME")],
   []]

/-- The request `staff422Step` attempts from state `s` for payload `p`. -/
def staff422Req (s : TState) (p : List (String × PyVal)) : Request :=
  ⟨"POST", BASE_URL ++ "/staff/add", s.headers, some p, none⟩

/-- The per-variant loop body shared by `test_add_staff_missing_fields`
(lines 159-169) and `test_add_staff_invalid_data` (lines 179-189): post the
variant, record pass exactly on status 422, and recover any exception as a
failed result for this variant. -/
def staff422Step (o : Oracle) (label passMsg : String)
    (payload : List (String × PyVal)) (s : TState) : TState :=
  let (rr, s1) := sessionReq o s "POST" (BASE_URL ++ "/staff/add") (some payload) none
  match rr with
  | .error e => log_test s1 label false ("Exception: " ++ e) none
  | .ok resp =>
    if resp.status = 422 then
      log_test s1 label true passMsg none
    else
      match jsonOf resp with
      | .error e => log_test s1 label false ("Exception: " ++ e) none
      | .ok body =>
        log_test s1 label false ("Expected 422, got " ++ toString resp.status) (some (.inl body))

/-- `for i, payload in enumerate(test_cases)` over `staff422Step`. -/
def staff422Loop (o : Oracle) (labelBase passMsg : String) :
    Nat → List (List (String × PyVal)) → TState → TState
  | _, [], s => s
  | i, p :: rest, s =>
    staff422Loop o labelBase passMsg (i + 1) rest
      (staff422Step o (labelBase ++ toString (i + 1)) passMsg p s)

/-- `test_add_staff_missing_fields` (lines 150-169).  The variant list itself
is built outside any `try`, so the unresolved `TEST_STAFF_EMAIL` reference
raises out of the method (the `.error` case carries the state at entry). -/
def test_add_staff_missing_fields (o : Oracle) (s : TState) :
    Except (PyErr × TState) TState :=
  match resolveCaseList missingFieldsCases with
  | .error e => .error (e, s)
  | .ok cases =>
    .ok (staff422Loop o "Add Staff - Missing Fields " "Correctly returned 422 for missing fields"
      0 cases s)

/-- The three payload variants of `test_add_staff_invalid_data`
(lines 173-177). -/
def invalidDataCases : List (List (String × FieldSrc)) :=
  [[("username", .lit (.vint 123)), ("password", .var "TEST_STAFF_PASSWORD"),
    ("full_name", .var "TEST_STAFF_FULL_NAME")],
   [("username", .var "TEST_STAFF_EMAIL"), ("password", .lit (.vint 123)),
    ("full_name", .var "TEST_STAFF_FULL_NAME")],
   [("username", .var "TEST_STAFF_EMAIL"), ("password", .var "TEST_STAFF_PASSWORD"),
    ("full_name", .lit (.vint 123))]]

/-- `test_add_staff_invalid_data` (lines 171-189); like the missing-fields
test, the variant list is built outside any `try`. -/
def test_add_staff_invalid_data (o : Oracle) (s : TState) :
    Except (PyErr × TState) TState :=
  match resolveCaseList invalidDataCases with
  | .error e => .error (e, s)
  | .ok cases =>
    .ok (staff422Loop o "Add Staff - Invalid Data " "Correctly returned 422 for invalid data types"
      0 cases s)

/-- The literal payload of `test_add_staff_without_auth` (lines 199-203). -/
def noAuthPayload : List (String × PyVal) :=
  [("username", .vstr "noauth@example.com"),
   ("password", .vstr "password123"),
   ("full_name", .vstr "No Auth User")]

/-- The request `test_add_staff_without_auth` attempts from state `s`: the
staff payload with the session headers minus `Authorization`. -/
def noAuthReq (s : TState) : Request :=
  ⟨"POST", BASE_URL ++ "/staff/add", delHeader s.headers "Authorization",
   some noAuthPayload, none⟩

/-- `test_add_staff_without_auth` (lines 191-219): copy the session headers,
delete `Authorization`, post, and restore the headers — but the restore
(line 208) is only reached when the post returns; a transport exception jumps
to the handler with the `Authorization` header still deleted. -/
def test_add_staff_without_auth (o : Oracle) (s : TState) : Bool × TState :=
  let original_headers := s.headers
  let sDel := { s with headers := delHeader s.headers "Authorization" }
  let (rr, s1) := sessionReq o sDel "POST" (BASE_URL ++ "/staff/add") (some noAuthPayload) none
  match rr with
  | .error e => (false, log_test s1 "Add Staff - No Auth" false ("Exception: " ++ e) none)
  | .ok resp =>
    let s2 := { s1 with headers := original_headers }
    if resp.status = 401 then
      (true, log_test s2 "Add Staff - No Auth" true
        "Correctly returned 401 for unauthenticated request" none)
    else
      match jsonOf resp with
      | .error e => (false, log_test s2 "Add Staff - No Auth" false ("Exception: " ++ e) none)
      | .ok body =>
        (false, log_test s2 "Add Staff - No Auth" false
          ("Expected 401, got " ++ toString resp.status) (some (.inl body)))

/-- `failed_tests` of the summary (lines 250-252): total minus passed. -/
def failedCount (s : TState) : Nat :=
  s.test_results.length - (s.test_results.filter (fun r => r.success)).length

/-- `run_all_tests` (lines 221-265).  The three authentication-flow tests are
gates: a `False` return stops the run.  A `NameError` escaping
`test_add_staff_missing_fields` or `test_add_staff_invalid_data` propagates
out of `run_all_tests` (the `.error` case). -/
def run_all_tests (o : Oracle) : Except (PyErr × TState) (Bool × TState) :=
  let s := init
  let (ok1, s) := test_register_user o s
  if !ok1 then .ok (false, s) else
  let (ok2, s) := test_login o s
  if !ok2 then .ok (false, s) else
  let (ok3, s) := test_get_users o s
  if !ok3 then .ok (false, s) else
  let (_, s) := test_add_staff_valid_data o s
  match test_add_staff_missing_fields o s with
  | .error e => .error e
  | .ok s =>
    match test_add_staff_invalid_data o s with
    | .error e => .error e
    | .ok s =>
      let (_, s) := test_add_staff_without_auth o s
      .ok (decide (failedCount s = 0), s)

/-- The `__main__` block (lines 267-270): `sys.exit(0 if success else 1)`;
an uncaught exception also ends the process with exit code 1. -/
def mainExit (o : Oracle) : Nat :=
  match run_all_tests o with
  | .ok (true, _) => 0
  | .ok (false, _) => 1
  | .error _ => 1

/-- The state every run of `run_all_tests` ends in: the registration case has
recorded its `NameError` as a failure and the run stopped at the registration
gate, before any HTTP request. -/
def regFailState : TState :=
  { headers := [], auth_token := none,
    test_results := [⟨"User Registration", false,
      "Exception: name TEST_USER_FULL_NAME is not defined", none⟩],
    sent := [] }

end BackendTest

namespace Investigation

/-! ## `detailed_422_investigation.py` -/

/-- The `DetailedInvestigator` state (lines 16-20): session (whose headers the
script never modifies), `auth_token`, `test_counter`, plus the ghost list of
attempted sequential requests. -/
structure IState where
  headers : List (String × String)
  auth_token : Option String
  test_counter : Nat
  sent : List Request
deriving DecidableEq, Repr

/-- `DetailedInvestigator.__init__`. -/
def initI : IState :=
  { headers := [], auth_token := none, test_counter := 0, sent := [] }

/-- The login request of `get_auth_token` (lines 25-30). -/
def tokenReq (s : IState) : Request :=
  ⟨"POST", BASE_URL ++ "/token", s.headers, none,
   some [("username", "testadmin@example.com"), ("password", "testpass123")]⟩

/-- `get_auth_token` (lines 22-42): form-encoded `POST /token`; on a 200 with
a JSON body, store `access_token` (possibly absent, hence `None`) and return
`True`; any other status, an unparseable body, or a transport exception
returns `False`.  No result record is produced. -/
def get_auth_token (o : Oracle) (s : IState) : Bool × IState :=
  let req := tokenReq s
  let s1 := { s with sent := s.sent ++ [req] }
  match o s.sent.length req with
  | .error _ => (false, s1)
  | .ok resp =>
    if resp.status = 200 then
      match jsonOf resp with
      | .error _ => (false, s1)
      | .ok body => (true, { s1 with auth_token := body.accessToken })
    else (false, s1)

/-- One entry of `test_cases` in `test_staff_add_with_variations`
(lines 47-165): name, payload dict, per-call headers. -/
structure VarCase where
  vname : String
  payload : List (String × PyVal)
  hdrs : List (String × String)
deriving DecidableEq, Repr

/-- The bearer headers used by most variation cases. -/
def authHeaders (tok : Option String) : List (String × String) :=
  [("Authorization", "Bearer " ++ pyStr tok), ("Content-Type", "application/json")]

/-- `"a" * 1000` etc. -/
def rep1000 (c : Char) : String := String.mk (List.replicate 1000 c)

/-- The ten variation cases (lines 47-165), with the f-strings evaluated at
construction time against the current `auth_token` and `test_counter`. -/
def variationCases (tok : Option String) (c : Nat) : List VarCase :=
  [⟨"Standard valid request",
    [("username", .vstr ("test" ++ toString c ++ "@example.com")),
     ("password", .vstr "testpass123"), ("full_name", .vstr "Test User")],
    authHeaders tok⟩,
   ⟨"Empty string values",
    [("username", .vstr ""), ("password", .vstr ""), ("full_name", .vstr "")],
    authHeaders tok⟩,
   ⟨"None values",
    [("username", .vnone), ("password", .vnone), ("full_name", .vnone)],
    authHeaders tok⟩,
   ⟨"Missing fields",
    [("username", .vstr ("test" ++ toString (c + 1) ++ "@example.com"))],
    authHeaders tok⟩,
   ⟨"Wrong data types",
    [("username", .vint 123), ("password", .vint 456), ("full_name", .vint 789)],
    authHeaders tok⟩,
   ⟨"Invalid email format",
    [("username", .vstr "not-an-email"), ("password", .vstr "testpass123"),
     ("full_name", .vstr "Test User")],
    authHeaders tok⟩,
   ⟨"Very long strings",
    [("username", .vstr (rep1000 'a' ++ "@example.com")),
     ("password", .vstr (rep1000 'b')), ("full_name", .vstr (rep1000 'c'))],
    authHeaders tok⟩,
   ⟨"Special characters",
    [("username", .vstr "test+special@example.com"),
     ("password", .vstr "pass!@#$%^&*()"),
     ("full_name", .vstr "Test Üser Çağlar Şahin")],
    authHeaders tok⟩,
   ⟨"Wrong Content-Type",
    [("username", .vstr ("test" ++ toString (c + 2) ++ "@example.com")),
     ("password", .vstr "testpass123"), ("full_name", .vstr "Test User")],
    [("Authorization", "Bearer " ++ pyStr tok),
     ("Content-Type", "application/x-www-form-urlencoded")]⟩,
   ⟨"No Content-Type",
    [("username", .vstr ("test" ++ toString (c + 3) ++ "@example.com")),
     ("password", .vstr "testpass123"), ("full_name", .vstr "Test User")],
    [("Authorization", "Bearer " ++ pyStr tok)]⟩]

/-- One entry of the `results` list of `test_staff_add_with_variations`
(lines 185-198 on the response path, lines 216-221 on the exception path);
`status_code` is `none` for the string `"EXCEPTION"`. -/
structure VarResult where
  test_name : String
  status_code : Option Nat
  success : Bool
  payload : Option (List (String × PyVal))
  hdrs : Option (List (String × String))
  response_data : Option (Sum Body String)
  error : Option String
deriving DecidableEq, Repr

/-- Lines 175-177: if the payload has a string `username` containing the
literal text `test{`, refresh it with the current counter.  (The usernames
were f-formatted at construction, so the condition is never met; it is kept
for faithfulness.) -/
def refreshUsername (counter : Nat) (p : List (String × PyVal)) : List (String × PyVal) :=
  match List.lookup "username" p with
  | some (.vstr u) =>
    if pyIn "test\x7b" u then
      p.map (fun q => if q.1 == "username"
        then (q.1, PyVal.vstr ("test" ++ toString counter ++ "@example.com")) else q)
    else p
  | _ => p

/-- The loop body of `test_staff_add_with_variations` (lines 169-221):
increment the counter, post the variant with merged headers, and build
exactly one result record; a transport exception yields the
`"EXCEPTION"` record. -/
def runVariation (o : Oracle) (s : IState) (c : VarCase) : IState × VarResult :=
  let s0 := { s with test_counter := s.test_counter + 1 }
  let payload := refreshUsername s0.test_counter c.payload
  let req : Request := ⟨"POST", BASE_URL ++ "/staff/add",
    mergeHeaders s0.headers c.hdrs, some payload, none⟩
  let s1 := { s0 with sent := s0.sent ++ [req] }
  match o s0.sent.length req with
  | .error e =>
    (s1, ⟨c.vname, none, false, none, none, none, some e⟩)
  | .ok resp =>
    let rdata : Sum Body String :=
      if resp.body.jsonOk then .inl resp.body else .inr resp.text
    (s1, ⟨c.vname, some resp.status, decide (resp.status = 200 ∨ resp.status = 400),
      some payload, some c.hdrs, some rdata, none⟩)

/-- The request `runVariation` attempts for case `c` from pre-state `s`
(the counter has already been incremented when the request is built). -/
def varReq (s : IState) (c : VarCase) : Request :=
  ⟨"POST", BASE_URL ++ "/staff/add", mergeHeaders s.headers c.hdrs,
   some (refreshUsername (s.test_counter + 1) c.payload), none⟩

/-- `for i, test_case in enumerate(test_cases)` over `runVariation`. -/
def variationsLoop (o : Oracle) : IState → List VarCase → IState × List VarResult
  | s, [] => (s, [])
  | s, c :: rest =>
    let (s1, r) := runVariation o s c
    let (s2, rs) := variationsLoop o s1 rest
    (s2, r :: rs)

/-- `test_staff_add_with_variations` (lines 44-223). -/
def test_staff_add_with_variations (o : Oracle) (s : IState) : IState × List VarResult :=
  variationsLoop o s (variationCases s.auth_token s.test_counter)

/-- One entry of the concurrent-probe queue (lines 253-264); `status_code`
is `none` for `"EXCEPTION"`, `response` holds the parsed body for non-422
statuses and the raw text for 422. -/
structure ConcResult where
  thread_id : Nat
  status_code : Option Nat
  response : Option (Sum Body String)
  error : Option String
deriving DecidableEq, Repr

/-- The username of thread `i` (line 237). -/
def concUsername (i : Nat) : String := "concurrent" ++ toString i ++ "@example.com"

/-- The request thread `i` posts (lines 236-251), via a fresh `requests.post`
call, not the shared session. -/
def concRequest (tok : Option String) (i : Nat) : Request :=
  ⟨"POST", BASE_URL ++ "/staff/add",
   [("Authorization", "Bearer " ++ pyStr tok), ("Content-Type", "application/json")],
   some [("username", .vstr (concUsername i)), ("password", .vstr "testpass123"),
         ("full_name", .vstr ("Concurrent User " ++ toString i))],
   none⟩

/-- `make_request(thread_id)` (lines 234-264): each worker thread posts its one
request and puts exactly one record on the queue — the response record, or the
exception record when the post raises or when `response.json()` raises on a
non-422 status.  `ρ` is the per-thread view of the remote service. -/
def make_request (tok : Option String) (ρ : Fin 5 → Request → Except String HResp)
    (i : Fin 5) : ConcResult :=
  match ρ i (concRequest tok i.val) with
  | .error e => ⟨i.val, none, none, some e⟩
  | .ok resp =>
    if resp.status = 422 then
      ⟨i.val, some resp.status, some (.inr resp.text), none⟩
    else if resp.body.jsonOk then
      ⟨i.val, some resp.status, some (.inl resp.body), none⟩
    else
      ⟨i.val, none, none, some "Expecting value"⟩

/-- `test_concurrent_requests` (lines 225-284): five threads are started, one
per `thread_id` in `range(5)`, each putting exactly one record on the shared
thread-safe queue; the runner joins all five threads and only then drains the
queue.  `arrival` is the order in which the five records reached the queue:
the join guarantees it is a permutation of the five thread ids. -/
def test_concurrent_requests (tok : Option String)
    (ρ : Fin 5 → Request → Except String HResp) (arrival : List (Fin 5)) :
    List ConcResult :=
  arrival.map (make_request tok ρ)

/-- `run_investigation` (lines 286-328): login gate, then the variation tests,
then the concurrent probe; the returned success flag is
`len(error_422_tests) == 0 and len(concurrent_422s) == 0`, where both filters
keep exactly the results whose `status_code` equals 422. -/
def run_investigation (o : Oracle) (ρ : Fin 5 → Request → Except String HResp)
    (arrival : List (Fin 5)) : Bool × IState × List VarResult × List ConcResult :=
  match get_auth_token o initI with
  | (false, s) => (false, s, [], [])
  | (true, s) =>
    let (s1, vr) := test_staff_add_with_variations o s
    let cr := test_concurrent_requests s1.auth_token ρ arrival
    let error_422_tests := vr.filter (fun r => r.status_code == some 422)
    let concurrent_422s := cr.filter (fun r => r.status_code == some 422)
    (decide (error_422_tests.length = 0 ∧ concurrent_422s.length = 0), s1, vr, cr)

/-- The `__main__` block (lines 330-333): `sys.exit(0 if success else 1)`. -/
def mainExit (o : Oracle) (ρ : Fin 5 → Request → Except String HResp)
    (arrival : List (Fin 5)) : Nat :=
  if (run_investigation o ρ arrival).1 then 0 else 1

end Investigation

namespace FrontendSim

/-! ## `frontend_simulation_test.py` -/

/-- The `FrontendSimulator` state (lines 17-20). -/
structure FState where
  headers : List (String × String)
  auth_token : Option String
  sent : List Request
deriving DecidableEq, Repr

/-- `FrontendSimulator.__init__`. -/
def initF : FState :=
  { headers := [], auth_token := none, sent := [] }

/-- The login request of `simulate_login` (lines 27-33). -/
def loginReq (s : FState) : Request :=
  ⟨"POST", BASE_URL ++ "/token", s.headers, none,
   some [("username", "testadmin@example.com"), ("password", "testpass123")]⟩

/-- `simulate_login` (lines 22-46): form-encoded `POST /token`; on 200 the
token is stored and then sliced for printing (`self.auth_token[:20]`), which
raises `TypeError` when the body has no `access_token` — caught by the
handler, so a 200 without a token returns `False` with `auth_token = None`
already assigned. -/
def simulate_login (o : Oracle) (s : FState) : Bool × FState :=
  let req := loginReq s
  let s1 := { s with sent := s.sent ++ [req] }
  match o s.sent.length req with
  | .error _ => (false, s1)
  | .ok resp =>
    if resp.status = 200 then
      match jsonOf resp with
      | .error _ => (false, s1)
      | .ok body =>
        let s2 := { s1 with auth_token := body.accessToken }
        match body.accessToken with
        | none => (false, s2)
        | some _ => (true, s2)
    else (false, s1)

/-- `test_authentication_validity` (lines 106-134): `GET /users` with an
explicit bearer header; `True` exactly on a 200 whose body parses. -/
def test_authentication_validity (o : Oracle) (s : FState) : Bool × FState :=
  match s.auth_token with
  | none => (false, s)
  | some tok =>
    let hdrs := [("Authorization", "Bearer " ++ tok)]
    let req : Request := ⟨"GET", BASE_URL ++ "/users", mergeHeaders s.headers hdrs, none, none⟩
    let s1 := { s with sent := s.sent ++ [req] }
    match o s.sent.length req with
    | .error _ => (false, s1)
    | .ok resp =>
      if resp.status = 200 then
        match jsonOf resp with
        | .error _ => (false, s1)
        | .ok _ => (true, s1)
      else (false, s1)

/-- The staff-add request of `simulate_staff_add_request` (lines 56-78): the
fixed payload (lines 57-61) with the explicit bearer headers (lines 64-67). -/
def staffAddReq (s : FState) (tok : String) : Request :=
  ⟨"POST", BASE_URL ++ "/staff/add",
   mergeHeaders s.headers
     [("Authorization", "Bearer " ++ tok), ("Content-Type", "application/json")],
   some [("username", .vstr "newfrontendstaff@example.com"),
         ("password", .vstr "staffpass123"),
         ("full_name", .vstr "New Frontend Staff")],
   none⟩

/-- `simulate_staff_add_request` (lines 48-104): post the fixed staff payload;
200 and 400 both return `True` (the 400 detail is not inspected), 422 and
anything else return `False`.  The body-printing `try` (lines 83-87) cannot
change the outcome. -/
def simulate_staff_add_request (o : Oracle) (s : FState) : Bool × FState :=
  match s.auth_token with
  | none => (false, s)
  | some tok =>
    let req := staffAddReq s tok
    let s1 := { s with sent := s.sent ++ [req] }
    match o s.sent.length req with
    | .error _ => (false, s1)
    | .ok resp =>
      if resp.status = 200 then (true, s1)
      else if resp.status = 422 then (false, s1)
      else if resp.status = 400 then (true, s1)
      else (false, s1)

/-- The four payloads of `test_different_payloads` (lines 149-182). -/
def differentPayloads : List (List (String × PyVal)) :=
  [[("username", .vstr "test1@example.com"), ("password", .vstr "pass123"),
    ("full_name", .vstr "Test User 1")],
   [("username", .vstr ""), ("password", .vstr ""), ("full_name", .vstr "")],
   [("username", .vstr "test2@example.com"), ("password", .vstr "pass123")],
   [("username", .vstr "test3@example.com"), ("password", .vstr "pass123"),
    ("full_name", .vstr "Test User 3"), ("extra_field", .vstr "should be ignored")]]

/-- `test_different_payloads` (lines 136-204): posts each payload and only
prints the outcomes; it records nothing and returns nothing. -/
def test_different_payloads (o : Oracle) (s : FState) : FState :=
  match s.auth_token with
  | none => s
  | some tok =>
    let hdrs := [("Authorization", "Bearer " ++ tok), ("Content-Type", "application/json")]
    differentPayloads.foldl
      (fun st p =>
        let req : Request := ⟨"POST", BASE_URL ++ "/staff/add",
          mergeHeaders st.headers hdrs, some p, none⟩
        let _printedOnly := o st.sent.length req
        { st with sent := st.sent ++ [req] })
      s

/-- `run_simulation` (lines 206-231): login gate, auth-validity gate, then the
staff-add result becomes the run's success flag, and `test_different_payloads`
runs afterwards without affecting it. -/
def run_simulation (o : Oracle) : Bool × FState :=
  match simulate_login o initF with
  | (false, s) => (false, s)
  | (true, s) =>
    match test_authentication_validity o s with
    | (false, s1) => (false, s1)
    | (true, s1) =>
      let (success, s2) := simulate_staff_add_request o s1
      let s3 := test_different_payloads o s2
      (success, s3)

/-- The `__main__` block (lines 233-236): `sys.exit(0 if success else 1)`. -/
def mainExit (o : Oracle) : Nat :=
  if (run_simulation o).1 then 0 else 1

end FrontendSim

/-! ## Concrete environments used in counterexamples and witnesses -/

/-- A response whose body parses as JSON, with the given status, `detail`
field and `access_token` field. -/
def okJson (status : Nat) (detail : Option String) (tok : Option String) : HResp :=
  ⟨status, ⟨true, detail, tok, 0⟩, ""⟩

/-- A service that answers every request with `200` and a token. -/
def oracle200 : Oracle := fun _ _ => .ok (okJson 200 none (some "tok"))

/-- A service that answers every request with `401`. -/
def oracle401 : Oracle := fun _ _ => .ok (okJson 401 none none)

/-- A service on which every request raises a transport exception. -/
def oracleErr : Oracle := fun _ _ => .error "Connection timed out"

/-- A service that answers every request with `400` and a `detail` mentioning
nothing about prior registration. -/
def oracle400 : Oracle := fun _ _ => .ok (okJson 400 (some "Invalid request payload") none)

/-- A service that answers every request with `422`. -/
def oracle422 : Oracle := fun _ _ => .ok (okJson 422 none none)

/-- Per-thread view of a service answering every concurrent request 200. -/
def rho200 : Fin 5 → Request → Except String HResp := fun _ _ => .ok (okJson 200 none none)

/-- The identity arrival order of the five concurrent-probe records. -/
def idArrival : List (Fin 5) := [0, 1, 2, 3, 4]

/-- A service for `detailed_422_investigation.py` on which login succeeds and
the fourth variation request fails with status 500 (and no request anywhere
returns 422): attempt 0 is the login, attempts 1-10 the variations. -/
def c1Oracle : Oracle := fun n _ =>
  if n = 0 then .ok (okJson 200 none (some "tok"))
  else if n = 4 then .ok (okJson 500 none none)
  else .ok (okJson 200 none none)

/-- A service for `detailed_422_investigation.py` on which login succeeds and
the first variation request returns `400` with a `detail` that does not
mention "already registered". -/
def c3Oracle : Oracle := fun n _ =>
  if n = 0 then .ok (okJson 200 none (some "tok"))
  else if n = 1 then .ok (okJson 400 (some "Invalid request payload") none)
  else .ok (okJson 200 none none)

/-- A service whose `POST /token` answers `200` with a JSON body carrying no
`access_token` field, and `200` elsewhere. -/
def c4Oracle : Oracle := fun _ _ => .ok (okJson 200 none none)

/-- A `backend_test.py` session state in which a login has stored a bearer
token in the session headers. -/
def c8State : BackendTest.TState :=
  { headers := [("Authorization", "Bearer tok123")], auth_token := some "tok123",
    test_results := [], sent := [] }

/-! ## Theorems -/

/-- Every run of `backend_test.py` ends in `regFailState`: the registration
case records its `NameError` failure, the run stops at the registration gate,
and no request was attempted. -/
theorem BackendTest.run_all_tests_eq (o : Oracle) :
    BackendTest.run_all_tests o = .ok (false, BackendTest.regFailState) := rfl

/-- Deleting a header key makes lookups of that key fail. -/
theorem lookup_delHeader (hs : List (String × String)) (k : String) :
    List.lookup k (delHeader hs k) = none := by
  induction hs with
  | nil => rfl
  | cons p rest ih =>
    rcases p with ⟨a, b⟩
    simp only [delHeader, List.filter_cons] at ih ⊢
    by_cases h : a = k
    · simpa [h] using ih
    · have h2 : (k == a) = false := by
        simp [Ne.symm h]
      rw [if_pos (by simp [h])]
      simpa [List.lookup, h2] using ih

/-- C7: `test_add_staff_without_auth` attempts exactly one request, whose
headers have no `Authorization` entry; it appends exactly one result, which
passes (and the method returns `True`) precisely when the observed status is
401, and records a failure on any transport exception. -/
theorem claim_C7 (o : Oracle) (s : BackendTest.TState) :
    (BackendTest.test_add_staff_without_auth o s).2.sent
        = s.sent ++ [BackendTest.noAuthReq s] ∧
    List.lookup "Authorization" (BackendTest.noAuthReq s).headers = none ∧
    (∀ resp, o s.sent.length (BackendTest.noAuthReq s) = .ok resp →
      ∃ r : BackendTest.TestResult,
        (BackendTest.test_add_staff_without_auth o s).2.test_results
            = s.test_results ++ [r] ∧
        (BackendTest.test_add_staff_without_auth o s).1 = r.success ∧
        (r.success = true ↔ resp.status = 401)) ∧
    (∀ e, o s.sent.length (BackendTest.noAuthReq s) = .error e →
      ∃ r : BackendTest.TestResult,
        (BackendTest.test_add_staff_without_auth o s).2.test_results
            = s.test_results ++ [r] ∧ r.success = false) := by
  refine ⟨?_, lookup_delHeader s.headers "Authorization", ?_, ?_⟩
  · simp only [BackendTest.test_add_staff_without_auth, BackendTest.sessionReq,
      BackendTest.noAuthReq, BackendTest.log_test]
    cases h : o s.sent.length (BackendTest.noAuthReq s) with
    | error e =>
      simp only [BackendTest.noAuthReq] at h
      simp [h]
    | ok resp =>
      simp only [BackendTest.noAuthReq] at h
      simp only [h]
      by_cases h401 : resp.status = 401
      · simp [h401]
      · simp only [if_neg h401]
        rcases hj : jsonOf resp with e | body <;> simp [hj]
  · intro resp h
    simp only [BackendTest.test_add_staff_without_auth, BackendTest.sessionReq,
      BackendTest.noAuthReq, BackendTest.log_test]
    simp only [BackendTest.noAuthReq] at h
    simp only [h]
    by_cases h401 : resp.status = 401
    · refine ⟨⟨"Add Staff - No Auth", true,
        "Correctly returned 401 for unauthenticated request", none⟩, ?_, ?_, ?_⟩ <;>
        simp [h401]
    · rcases hj : jsonOf resp with e | body
      · refine ⟨⟨"Add Staff - No Auth", false, "Exception: " ++ e, none⟩, ?_, ?_, ?_⟩ <;>
          simp [h401, hj]
      · refine ⟨⟨"Add Staff - No Auth", false, "Expected 401, got " ++ toString resp.status,
          some (.inl body)⟩, ?_, ?_, ?_⟩ <;> simp [h401, hj]
  · intro e h
    simp only [BackendTest.test_add_staff_without_auth, BackendTest.sessionReq,
      BackendTest.noAuthReq, BackendTest.log_test]
    simp only [BackendTest.noAuthReq] at h
    simp only [h]
    exact ⟨⟨"Add Staff - No Auth", false, "Exception: " ++ e, none⟩, by simp, by simp⟩

/-- C7 witness: on a service answering 401 the no-auth case records a pass,
and on one answering 200 it records a failure. -/
theorem claim_C7_witness :
    (∃ r : BackendTest.TestResult,
      (BackendTest.test_add_staff_without_auth oracle401 BackendTest.init).2.test_results
          = BackendTest.init.test_results ++ [r] ∧
      (BackendTest.test_add_staff_without_auth oracle401 BackendTest.init).1 = r.success ∧
      (r.success = true ↔ (okJson 401 none none).status = 401)) ∧
    (∃ r : BackendTest.TestResult,
      (BackendTest.test_add_staff_without_auth oracle200 BackendTest.init).2.test_results
          = BackendTest.init.test_results ++ [r] ∧
      (BackendTest.test_add_staff_without_auth oracle200 BackendTest.init).1 = r.success ∧
      (r.success = true ↔ (okJson 200 none (some "tok")).status = 401)) :=
  ⟨(claim_C7 oracle401 BackendTest.init).2.2.1 (okJson 401 none none) rfl,
   (claim_C7 oracle200 BackendTest.init).2.2.1 (okJson 200 none (some "tok")) rfl⟩

/-- C1 counterexample: a run of `detailed_422_investigation.py` on a service
whose fourth variation request returns 500 — so that the fourth result is
recorded as a failure — while no request returns 422: the process still exits
with code 0, refuting "exits 0 iff no variation result and no concurrent
result is a failure". -/
theorem claim_C1_cex :
    Investigation.mainExit c1Oracle rho200 idArrival = 0 ∧
    ((Investigation.run_investigation c1Oracle rho200 idArrival).2.2.1.map
        (fun r => r.success))
      = [true, true, true, false, true, true, true, true, true, true] ∧
    ((Investigation.run_investigation c1Oracle rho200 idArrival).2.2.1.map
        (fun r => r.status_code)).get? 3 = some (some 500) := by
  refine ⟨by decide, by decide, by decide⟩

/-- C1 amended: `backend_test` exits 0 iff the run's failed-test count is
zero (in fact both sides are always false: registration always fails);
`detailed_422_investigation` exits 0 iff the login succeeded and no variation
result and no concurrent result has status code 422 — a result that fails
with any other status (or an exception) does not force exit code 1. -/
theorem claim_C1 :
    (∀ o : Oracle, BackendTest.mainExit o = 0 ↔
      (∃ b s, BackendTest.run_all_tests o = .ok (b, s) ∧ BackendTest.failedCount s = 0)) ∧
    (∀ (o : Oracle) (ρ : Fin 5 → Request → Except String HResp) (arrival : List (Fin 5)),
      Investigation.mainExit o ρ arrival = 0 ↔
        ((Investigation.get_auth_token o Investigation.initI).1 = true ∧
         (∀ r ∈ (Investigation.run_investigation o ρ arrival).2.2.1,
            r.status_code ≠ some 422) ∧
         (∀ r ∈ (Investigation.run_investigation o ρ arrival).2.2.2,
            r.status_code ≠ some 422))) := by
  constructor
  · intro o
    have h := BackendTest.run_all_tests_eq o
    simp only [BackendTest.mainExit, h]
    constructor
    · intro h10; exact absurd h10 (by decide)
    · rintro ⟨b, s, hbs, hf⟩
      obtain ⟨rfl, rfl⟩ : b = false ∧ s = BackendTest.regFailState := by
        simpa [eq_comm] using hbs
      exact absurd hf (by decide)
  · intro o ρ arrival
    rcases hg : Investigation.get_auth_token o Investigation.initI with ⟨b, sg⟩
    rcases b
    · simp [Investigation.mainExit, Investigation.run_investigation, hg]
    · rcases hv : Investigation.test_staff_add_with_variations o sg with ⟨s1, vr⟩
      simp [Investigation.mainExit, Investigation.run_investigation, hg, hv]

/-- C1 witness: the amended equivalences instantiated on a concrete service
with all-200 answers. -/
theorem claim_C1_witness :
    (BackendTest.mainExit oracle200 = 0 ↔
      (∃ b s, BackendTest.run_all_tests oracle200 = .ok (b, s) ∧
        BackendTest.failedCount s = 0)) ∧
    (Investigation.mainExit oracle200 rho200 idArrival = 0 ↔
      ((Investigation.get_auth_token oracle200 Investigation.initI).1 = true ∧
       (∀ r ∈ (Investigation.run_investigation oracle200 rho200 idArrival).2.2.1,
          r.status_code ≠ some 422) ∧
       (∀ r ∈ (Investigation.run_investigation oracle200 rho200 idArrival).2.2.2,
          r.status_code ≠ some 422))) :=
  ⟨claim_C1.1 oracle200, claim_C1.2 oracle200 rho200 idArrival⟩

/-- C3 counterexample: in `detailed_422_investigation.py`, a variation whose
request is answered `400` with the detail "Invalid request payload" — which
does not contain "already registered" — is still recorded as a pass
(`success = true`), refuting the claim for "every script". -/
theorem claim_C3_cex :
    ((Investigation.run_investigation c3Oracle rho200 idArrival).2.2.1.map
        (fun r => (r.status_code, r.success))).get? 0 = some (some 400, true) ∧
    ((Investigation.run_investigation c3Oracle rho200 idArrival).2.2.1.map
        (fun r => r.response_data)).get? 0
      = some (some (.inl ⟨true, some "Invalid request payload", none, 0⟩)) ∧
    pyIn "already registered" "Invalid request payload" = false := by
  refine ⟨by decide, by decide, by decide⟩

/-- C3 amended: only `backend_test.py` guards a staff-add 400 with the
"already registered" substring check — and its staff-add case in fact never
observes any status, because building the payload raises `NameError`;
`detailed_422_investigation.py` records every 400 variation response as a
pass regardless of the body, and `frontend_simulation_test.py` treats every
staff-add 400 as acceptable without inspecting the detail. -/
theorem claim_C3 :
    (∀ (o : Oracle) (s : BackendTest.TState),
      BackendTest.test_add_staff_valid_data o s =
        (false, BackendTest.log_test s "Add Staff - Valid Data" false
          "Exception: name TEST_STAFF_EMAIL is not defined" none)) ∧
    (∀ (o : Oracle) (s : Investigation.IState) (c : Investigation.VarCase) (resp : HResp),
      o s.sent.length (Investigation.varReq s c) = .ok resp → resp.status = 400 →
        (Investigation.runVariation o s c).2.success = true) ∧
    (∀ (o : Oracle) (s : FrontendSim.FState) (tok : String) (resp : HResp),
      s.auth_token = some tok →
      o s.sent.length (FrontendSim.staffAddReq s tok) = .ok resp → resp.status = 400 →
        (FrontendSim.simulate_staff_add_request o s).1 = true) := by
  refine ⟨fun o s => rfl, ?_, ?_⟩
  · intro o s c resp h h400
    simp only [Investigation.varReq] at h
    simp only [Investigation.runVariation]
    simp [h, h400]
  · intro o s tok resp htok h h400
    simp only [FrontendSim.simulate_staff_add_request, htok]
    simp [h, h400]

/-- C3 witness: on a service answering `400` with a non-registration detail,
a variation case records a pass and the frontend staff-add returns success. -/
theorem claim_C3_witness :
    (Investigation.runVariation oracle400 Investigation.initI
        ⟨"w", [], []⟩).2.success = true ∧
    (FrontendSim.simulate_staff_add_request oracle400
        ⟨[], some "tok", []⟩).1 = true :=
  ⟨claim_C3.2.1 oracle400 Investigation.initI ⟨"w", [], []⟩
      (okJson 400 (some "Invalid request payload") none) rfl rfl,
   claim_C3.2.2 oracle400 ⟨[], some "tok", []⟩ "tok"
      (okJson 400 (some "Invalid request payload") none) rfl rfl rfl⟩

/-- C4 counterexample: on a service whose `POST /token` answers 200 with a
JSON body carrying no token, `detailed_422_investigation.py` treats the login
as successful (`auth_token = None`) and executes all ten subsequent variation
cases (eleven requests in total), refuting "if the POST /token step does not
yield a 200 with a token, no subsequent test case is executed". -/
theorem claim_C4_cex :
    (Investigation.get_auth_token c4Oracle Investigation.initI).1 = true ∧
    (Investigation.get_auth_token c4Oracle Investigation.initI).2.auth_token = none ∧
    ((Investigation.run_investigation c4Oracle rho200 idArrival).2.2.1).length = 10 ∧
    (Investigation.run_investigation c4Oracle rho200 idArrival).2.1.sent.length = 11 := by
  refine ⟨by decide, by decide, by decide, by decide⟩

/-- C4 amended: a login step that does not return HTTP 200 (with a parseable
body) is fatal — `detailed_422_investigation` and `frontend_simulation` then
terminate reporting failure with the login request as the only one attempted —
while `backend_test` never even reaches its login, stopping at the
registration gate; but a 200 login whose body lacks a token still counts as a
successful login in `detailed_422_investigation` (token `None`). -/
theorem claim_C4 :
    (∀ (o : Oracle) (ρ : Fin 5 → Request → Except String HResp) (arrival : List (Fin 5)),
      (Investigation.get_auth_token o Investigation.initI).1 = false →
        Investigation.run_investigation o ρ arrival =
          (false, (Investigation.get_auth_token o Investigation.initI).2, [], [])) ∧
    (∀ o : Oracle, (Investigation.get_auth_token o Investigation.initI).1 = true ↔
      (∃ resp, o 0 (Investigation.tokenReq Investigation.initI) = .ok resp ∧
        resp.status = 200 ∧ resp.body.jsonOk = true)) ∧
    (∀ o : Oracle, (Investigation.get_auth_token o Investigation.initI).2.sent
        = [Investigation.tokenReq Investigation.initI]) ∧
    (∀ o : Oracle, (FrontendSim.simulate_login o FrontendSim.initF).1 = false →
      FrontendSim.run_simulation o =
        (false, (FrontendSim.simulate_login o FrontendSim.initF).2)) ∧
    (∀ (o : Oracle) (resp : HResp),
      o 0 (FrontendSim.loginReq FrontendSim.initF) = .ok resp → resp.status ≠ 200 →
        (FrontendSim.simulate_login o FrontendSim.initF).1 = false) ∧
    (∀ o : Oracle, BackendTest.run_all_tests o = .ok (false, BackendTest.regFailState)) := by
  refine ⟨?_, ?_, ?_, ?_, ?_, fun o => BackendTest.run_all_tests_eq o⟩
  · intro o ρ arrival h
    rcases hg : Investigation.get_auth_token o Investigation.initI with ⟨b, s⟩
    rw [hg] at h
    simp only at h
    subst h
    simp [Investigation.run_investigation, hg]
  · intro o
    rcases h : o 0 (Investigation.tokenReq Investigation.initI) with e | resp
    · simp only [Investigation.tokenReq, Investigation.initI] at h
      simp [Investigation.get_auth_token, Investigation.initI, Investigation.tokenReq, jsonOf, h]
    · simp only [Investigation.tokenReq, Investigation.initI] at h
      by_cases h200 : resp.status = 200
      · by_cases hj : resp.body.jsonOk
        · simp [Investigation.get_auth_token, Investigation.initI, Investigation.tokenReq,
            jsonOf, h, h200, hj]
        · simp [Investigation.get_auth_token, Investigation.initI, Investigation.tokenReq,
            jsonOf, h, h200, hj]
      · simp [Investigation.get_auth_token, Investigation.initI, Investigation.tokenReq,
          jsonOf, h, h200]
  · intro o
    rcases h : o 0 (Investigation.tokenReq Investigation.initI) with e | resp
    · simp only [Investigation.tokenReq, Investigation.initI] at h
      simp [Investigation.get_auth_token, Investigation.initI, Investigation.tokenReq, jsonOf, h]
    · simp only [Investigation.tokenReq, Investigation.initI] at h
      by_cases h200 : resp.status = 200
      · by_cases hj : resp.body.jsonOk
        · simp [Investigation.get_auth_token, Investigation.initI, Investigation.tokenReq,
            jsonOf, h, h200, hj]
        · simp [Investigation.get_auth_token, Investigation.initI, Investigation.tokenReq,
            jsonOf, h, h200, hj]
      · simp [Investigation.get_auth_token, Investigation.initI, Investigation.tokenReq,
          jsonOf, h, h200]
  · intro o h
    rcases hl : FrontendSim.simulate_login o FrontendSim.initF with ⟨b, s⟩
    rw [hl] at h
    simp only at h
    subst h
    simp [FrontendSim.run_simulation, hl]
  · intro o resp h hne
    simp only [FrontendSim.loginReq, FrontendSim.initF] at h
    simp [FrontendSim.simulate_login, FrontendSim.initF, FrontendSim.loginReq, jsonOf, h, hne]

/-- C4 witness: on a service answering 401 everywhere, both gated runs stop
at the failed login. -/
theorem claim_C4_witness :
    Investigation.run_investigation oracle401 rho200 idArrival =
      (false, (Investigation.get_auth_token oracle401 Investigation.initI).2, [], []) ∧
    FrontendSim.run_simulation oracle401 =
      (false, (FrontendSim.simulate_login oracle401 FrontendSim.initF).2) ∧
    (FrontendSim.simulate_login oracle401 FrontendSim.initF).1 = false :=
  ⟨claim_C4.1 oracle401 rho200 idArrival (by decide),
   claim_C4.2.2.2.1 oracle401 (by decide),
   claim_C4.2.2.2.2.1 oracle401 (okJson 401 none none) rfl (by decide)⟩

/-- Each variation case yields a result labeled with its own name, on every
path (response or exception). -/
theorem runVariation_name (o : Oracle) (s : Investigation.IState) (c : Investigation.VarCase) :
    (Investigation.runVariation o s c).2.test_name = c.vname := by
  simp only [Investigation.runVariation]
  split <;> rfl

/-- The variation loop yields exactly one result per case, labeled in
execution order. -/
theorem variationsLoop_names (o : Oracle) :
    ∀ (cs : List Investigation.VarCase) (s : Investigation.IState),
      ((Investigation.variationsLoop o s cs).2).map (fun r => r.test_name)
        = cs.map (fun c => c.vname)
  | [], _ => rfl
  | c :: rest, s => by
    rcases hrv : Investigation.runVariation o s c with ⟨s1, r⟩
    rcases hvl : Investigation.variationsLoop o s1 rest with ⟨s2, rs⟩
    have h1 : r.test_name = c.vname := by
      have := runVariation_name o s c
      rw [hrv] at this
      exact this
    have h2 : rs.map (fun x => x.test_name) = rest.map (fun x => x.vname) := by
      have := variationsLoop_names o rest s1
      rw [hvl] at this
      exact this
    simp [Investigation.variationsLoop, hrv, hvl, h1, h2]

/-- C5 counterexample: on a service that would answer every request with 200,
the registration case — a non-login case — fails (its `NameError` is caught
and recorded), yet execution does not continue: the run ends with that single
result and no staff-management case ever runs, refuting "execution of the
remaining cases continues". -/
theorem claim_C5_cex :
    BackendTest.run_all_tests oracle200 = .ok (false, BackendTest.regFailState) ∧
    BackendTest.regFailState.test_results.map (fun r => (r.test, r.success))
      = [("User Registration", false)] ∧
    BackendTest.regFailState.sent = [] :=
  ⟨rfl, rfl, rfl⟩

/-- C5 amended: per-case recovery holds inside `detailed_422_investigation`'s
variation loop — every case, even one whose request raises, yields exactly one
labeled failed-or-passed result and the remaining cases still execute — and
inside `backend_test`'s individual staff cases (a transport exception in the
no-auth case is recorded as that case's failed result); but in `backend_test`
the registration and get-users gates abort the run on failure just like
login, and the run in fact always stops at the registration gate. -/
theorem claim_C5 :
    (∀ (o : Oracle) (s : Investigation.IState),
      ((Investigation.test_staff_add_with_variations o s).2).map (fun r => r.test_name)
        = (Investigation.variationCases s.auth_token s.test_counter).map (fun c => c.vname)) ∧
    (∀ (o : Oracle) (s : Investigation.IState),
      ((Investigation.test_staff_add_with_variations o s).2).length = 10) ∧
    (∀ (o : Oracle) (s : BackendTest.TState) (e : String),
      o s.sent.length (BackendTest.noAuthReq s) = .error e →
        (BackendTest.test_add_staff_without_auth o s).2.test_results
          = s.test_results ++ [⟨"Add Staff - No Auth", false, "Exception: " ++ e, none⟩]) ∧
    (∀ o : Oracle, BackendTest.run_all_tests o = .ok (false, BackendTest.regFailState)) := by
  refine ⟨?_, ?_, ?_, fun o => BackendTest.run_all_tests_eq o⟩
  · intro o s
    exact variationsLoop_names o (Investigation.variationCases s.auth_token s.test_counter) s
  · intro o s
    have h := variationsLoop_names o (Investigation.variationCases s.auth_token s.test_counter) s
    have h2 := congrArg List.length h
    simpa using h2
  · intro o s e h
    simp only [BackendTest.test_add_staff_without_auth, BackendTest.sessionReq,
      BackendTest.log_test]
    simp only [BackendTest.noAuthReq] at h
    simp [h]

/-- C5 witness: with every request raising a transport exception, the no-auth
case records exactly one failed result carrying the exception text. -/
theorem claim_C5_witness :
    (BackendTest.test_add_staff_without_auth oracleErr BackendTest.init).2.test_results
      = BackendTest.init.test_results ++
        [⟨"Add Staff - No Auth", false, "Exception: Connection timed out", none⟩] :=
  claim_C5.2.2.1 oracleErr BackendTest.init "Connection timed out" rfl

/-- C6: the intended verdict logic of the missing-fields matrix matches the
claim — the per-variant loop body records exactly one result, labeled by the
caller, that passes iff the observed status is exactly 422 — but in every
execution the variant list construction raises `NameError` at the undefined
`TEST_STAFF_EMAIL` before any of the four variants is submitted, so
`test_add_staff_missing_fields` records nothing and the exception escapes the
method (the code bug: the staff constants are never defined). -/
theorem claim_C6 :
    (∀ (o : Oracle) (s : BackendTest.TState),
      BackendTest.test_add_staff_missing_fields o s
        = .error (.nameError "TEST_STAFF_EMAIL", s)) ∧
    (∀ (o : Oracle) (label passMsg : String) (p : List (String × PyVal))
        (s : BackendTest.TState) (resp : HResp),
      o s.sent.length (BackendTest.staff422Req s p) = .ok resp →
        ∃ r : BackendTest.TestResult,
          (BackendTest.staff422Step o label passMsg p s).test_results
            = s.test_results ++ [r] ∧
          r.test = label ∧ (r.success = true ↔ resp.status = 422)) := by
  refine ⟨fun o s => rfl, ?_⟩
  intro o label passMsg p s resp h
  simp only [BackendTest.staff422Step, BackendTest.sessionReq, BackendTest.log_test]
  simp only [BackendTest.staff422Req] at h
  simp only [h]
  by_cases h422 : resp.status = 422
  · refine ⟨⟨label, true, passMsg, none⟩, ?_, ?_, ?_⟩ <;> simp [h422]
  · rcases hj : jsonOf resp with e | body
    · refine ⟨⟨label, false, "Exception: " ++ e, none⟩, ?_, ?_, ?_⟩ <;> simp [h422, hj]
    · refine ⟨⟨label, false, "Expected 422, got " ++ toString resp.status,
        some (.inl body)⟩, ?_, ?_, ?_⟩ <;> simp [h422, hj]

/-- C6 witness: the verdict logic evaluated on services answering 422 and 200:
a 422 yields a pass record, a 200 yields a failure record. -/
theorem claim_C6_witness :
    (∃ r : BackendTest.TestResult,
      (BackendTest.staff422Step oracle422 "Add Staff - Missing Fields 1"
          "Correctly returned 422 for missing fields" [] BackendTest.init).test_results
        = BackendTest.init.test_results ++ [r] ∧
      r.test = "Add Staff - Missing Fields 1" ∧
      (r.success = true ↔ (okJson 422 none none).status = 422)) ∧
    (∃ r : BackendTest.TestResult,
      (BackendTest.staff422Step oracle200 "Add Staff - Missing Fields 4"
          "Correctly returned 422 for missing fields" [] BackendTest.init).test_results
        = BackendTest.init.test_results ++ [r] ∧
      r.test = "Add Staff - Missing Fields 4" ∧
      (r.success = true ↔ (okJson 200 none (some "tok")).status = 422)) :=
  ⟨claim_C6.2 oracle422 "Add Staff - Missing Fields 1"
      "Correctly returned 422 for missing fields" [] BackendTest.init (okJson 422 none none) rfl,
   claim_C6.2 oracle200 "Add Staff - Missing Fields 4"
      "Correctly returned 422 for missing fields" [] BackendTest.init
      (okJson 200 none (some "tok")) rfl⟩

/-- C8 counterexample: starting from a session whose headers hold the login
bearer token, a transport exception during the no-auth case's request leaves
the session headers empty — the `Authorization` header is not restored —
refuting "on every execution path including an exception from the request,
the session's headers equal their pre-case value after the case completes". -/
theorem claim_C8_cex :
    c8State.headers = [("Authorization", "Bearer tok123")] ∧
    (BackendTest.test_add_staff_without_auth oracleErr c8State).2.headers = [] ∧
    (BackendTest.test_add_staff_without_auth oracleErr c8State).2.headers
      ≠ c8State.headers := by
  refine ⟨rfl, by decide, by decide⟩

/-- C8 amended: the login case stores the token wholesale in the session
headers, subsequent authenticated requests carry the session headers
unchanged, and the no-auth case strips `Authorization` only for its own
single request and restores the pre-case headers whenever the post returns a
response — but when the post raises, the handler runs before the restore and
the `Authorization` header remains deleted after the case. -/
theorem claim_C8 :
    (∀ (o : Oracle) (s : BackendTest.TState) (resp : HResp),
      o s.sent.length (BackendTest.loginReqB s) = .ok resp → resp.status = 200 →
      resp.body.jsonOk = true →
        (BackendTest.test_login o s).2.auth_token = resp.body.accessToken ∧
        (BackendTest.test_login o s).2.headers
          = setHeader s.headers "Authorization"
              ("Bearer " ++ pyStr resp.body.accessToken)) ∧
    (∀ (o : Oracle) (s : BackendTest.TState),
      (BackendTest.test_get_users o s).2.sent = s.sent ++ [BackendTest.usersReq s] ∧
      (BackendTest.test_get_users o s).2.headers = s.headers) ∧
    (∀ (o : Oracle) (s : BackendTest.TState) (resp : HResp),
      o s.sent.length (BackendTest.noAuthReq s) = .ok resp →
        (BackendTest.test_add_staff_without_auth o s).2.headers = s.headers) ∧
    (∀ (o : Oracle) (s : BackendTest.TState) (e : String),
      o s.sent.length (BackendTest.noAuthReq s) = .error e →
        (BackendTest.test_add_staff_without_auth o s).2.headers
          = delHeader s.headers "Authorization") := by
  refine ⟨?_, ?_, ?_, ?_⟩
  · intro o s resp h h200 hj
    simp only [BackendTest.test_login, BackendTest.sessionReq, BackendTest.log_test]
    simp only [BackendTest.loginReqB] at h
    simp [h, h200, jsonOf, hj]
  · intro o s
    simp only [BackendTest.test_get_users, BackendTest.sessionReq, BackendTest.log_test]
    rcases h : o s.sent.length (BackendTest.usersReq s) with e | resp
    · simp only [BackendTest.usersReq] at h
      simp [h, BackendTest.usersReq]
    · simp only [BackendTest.usersReq] at h
      simp only [h]
      by_cases h200 : resp.status = 200
      · rcases hj : jsonOf resp with e2 | body <;> simp [h200, hj, BackendTest.usersReq]
      · by_cases h401 : resp.status = 401 <;>
          rcases hj : jsonOf resp with e2 | body <;> simp [h200, h401, hj, BackendTest.usersReq]
  · intro o s resp h
    simp only [BackendTest.test_add_staff_without_auth, BackendTest.sessionReq,
      BackendTest.log_test]
    simp only [BackendTest.noAuthReq] at h
    simp only [h]
    by_cases h401 : resp.status = 401
    · simp [h401]
    · rcases hj : jsonOf resp with e2 | body <;> simp [h401, hj]
  · intro o s e h
    simp only [BackendTest.test_add_staff_without_auth, BackendTest.sessionReq,
      BackendTest.log_test]
    simp only [BackendTest.noAuthReq] at h
    simp [h]

/-- C8 witness: on a 200-with-token service the login stores the bearer
header; on a 401 service the no-auth case restores the pre-case headers; on a
raising service it leaves the header deleted. -/
theorem claim_C8_witness :
    ((BackendTest.test_login oracle200 BackendTest.init).2.auth_token
        = (okJson 200 none (some "tok")).body.accessToken ∧
      (BackendTest.test_login oracle200 BackendTest.init).2.headers
        = setHeader BackendTest.init.headers "Authorization"
            ("Bearer " ++ pyStr (okJson 200 none (some "tok")).body.accessToken)) ∧
    (BackendTest.test_add_staff_without_auth oracle401 c8State).2.headers
      = c8State.headers ∧
    (BackendTest.test_add_staff_without_auth oracleErr c8State).2.headers
      = delHeader c8State.headers "Authorization" :=
  ⟨claim_C8.1 oracle200 BackendTest.init (okJson 200 none (some "tok")) rfl rfl rfl,
   claim_C8.2.2.1 oracle401 c8State (okJson 401 none none) rfl,
   claim_C8.2.2.2 oracleErr c8State "Connection timed out" rfl⟩

/-- Each worker thread's single queue record carries its own thread id, on
every path (response, unparseable body, or exception). -/
theorem make_request_thread_id (tok : Option String)
    (ρ : Fin 5 → Request → Except String HResp) (i : Fin 5) :
    (Investigation.make_request tok ρ i).thread_id = i.val := by
  simp only [Investigation.make_request]
  split
  · rfl
  · split_ifs <;> rfl

/-- C9: the concurrency probe dispatches exactly 5 staff-creation requests,
one per thread id, with pairwise distinct usernames; each thread posts
exactly one outcome to the queue; and since the probe joins all 5 threads
before draining, the collected list — for every possible arrival order of the
queue entries — is exactly the 5 per-thread outcomes: length 5, a permutation
of the per-thread outcome list, with the five thread ids each occurring
once. -/
theorem claim_C9 (tok : Option String) (ρ : Fin 5 → Request → Except String HResp)
    (arrival : List (Fin 5)) (hperm : arrival.Perm (List.finRange 5)) :
    (Investigation.test_concurrent_requests tok ρ arrival).length = 5 ∧
    (Investigation.test_concurrent_requests tok ρ arrival).Perm
      ((List.finRange 5).map (Investigation.make_request tok ρ)) ∧
    ((Investigation.test_concurrent_requests tok ρ arrival).map
        (fun r => r.thread_id)).Perm [0, 1, 2, 3, 4] ∧
    ((List.finRange 5).map (fun i => Investigation.concUsername i.val)).Nodup ∧
    (∀ i : Fin 5,
      List.lookup "username" (((Investigation.concRequest tok i.val).jsonBody).getD [])
        = some (.vstr (Investigation.concUsername i.val))) := by
  refine ⟨?_, ?_, ?_, by decide, fun i => rfl⟩
  · simp [Investigation.test_concurrent_requests, hperm.length_eq]
  · exact hperm.map (Investigation.make_request tok ρ)
  · have hmap : (Investigation.test_concurrent_requests tok ρ arrival).map
        (fun r => r.thread_id) = arrival.map (fun i => i.val) := by
      simp only [Investigation.test_concurrent_requests, List.map_map]
      exact List.map_congr_left (fun a _ => make_request_thread_id tok ρ a)
    rw [hmap]
    have h5 : (List.finRange 5).map (fun i : Fin 5 => i.val) = [0, 1, 2, 3, 4] := by decide
    rw [← h5]
    exact hperm.map _

/-- C9 witness: the probe's guarantees instantiated on a concrete all-200
service with the identity arrival order. -/
theorem claim_C9_witness :
    (Investigation.test_concurrent_requests none rho200 idArrival).length = 5 ∧
    (Investigation.test_concurrent_requests none rho200 idArrival).Perm
      ((List.finRange 5).map (Investigation.make_request none rho200)) ∧
    ((Investigation.test_concurrent_requests none rho200 idArrival).map
        (fun r => r.thread_id)).Perm [0, 1, 2, 3, 4] ∧
    ((List.finRange 5).map (fun i => Investigation.concUsername i.val)).Nodup ∧
    (∀ i : Fin 5,
      List.lookup "username" (((Investigation.concRequest none i.val).jsonBody).getD [])
        = some (.vstr (Investigation.concUsername i.val))) :=
  claim_C9 none rho200 idArrival (by decide)

/-- C10: results are append-only and mirror execution order.  `log_test`
extends the result list by exactly one new record, leaving every earlier
record unchanged; each executed backend test case appends exactly one record
on every path (response, unexpected status, or exception); and the variation
loop of `detailed_422_investigation` yields exactly one result per executed
case, labeled in execution order. -/
theorem claim_C10 :
    (∀ (s : BackendTest.TState) (t : String) (b : Bool) (d : String)
        (rd : Option (Sum Body String)),
      (BackendTest.log_test s t b d rd).test_results = s.test_results ++ [⟨t, b, d, rd⟩]) ∧
    (∀ (o : Oracle) (s : BackendTest.TState),
      ∃ r, (BackendTest.test_register_user o s).2.test_results = s.test_results ++ [r]) ∧
    (∀ (o : Oracle) (s : BackendTest.TState),
      ∃ r, (BackendTest.test_login o s).2.test_results = s.test_results ++ [r]) ∧
    (∀ (o : Oracle) (s : BackendTest.TState),
      ∃ r, (BackendTest.test_get_users o s).2.test_results = s.test_results ++ [r]) ∧
    (∀ (o : Oracle) (s : BackendTest.TState),
      ∃ r, (BackendTest.test_add_staff_valid_data o s).2.test_results
        = s.test_results ++ [r]) ∧
    (∀ (o : Oracle) (s : BackendTest.TState),
      ∃ r, (BackendTest.test_add_staff_without_auth o s).2.test_results
        = s.test_results ++ [r]) ∧
    (∀ (o : Oracle) (s : Investigation.IState),
      ((Investigation.test_staff_add_with_variations o s).2).map (fun r => r.test_name)
        = (Investigation.variationCases s.auth_token s.test_counter).map
            (fun c => c.vname)) := by
  refine ⟨fun s t b d rd => rfl, fun o s => ⟨_, rfl⟩, ?_, ?_, fun o s => ⟨_, rfl⟩, ?_,
    fun o s => variationsLoop_names o _ s⟩
  · intro o s
    simp only [BackendTest.test_login, BackendTest.sessionReq]
    rcases h : o s.sent.length (BackendTest.loginReqB s) with e | resp <;>
      simp only [BackendTest.loginReqB] at h <;> simp only [h]
    · exact ⟨_, rfl⟩
    · by_cases h200 : resp.status = 200
      · rw [if_pos h200]
        rcases hj : jsonOf resp with e2 | body <;> simp only [hj] <;> exact ⟨_, rfl⟩
      · rw [if_neg h200]
        rcases hj : jsonOf resp with e2 | body <;> simp only [hj] <;> exact ⟨_, rfl⟩
  · intro o s
    simp only [BackendTest.test_get_users, BackendTest.sessionReq]
    rcases h : o s.sent.length (BackendTest.usersReq s) with e | resp <;>
      simp only [BackendTest.usersReq] at h <;> simp only [h]
    · exact ⟨_, rfl⟩
    · by_cases h200 : resp.status = 200
      · rw [if_pos h200]
        rcases hj : jsonOf resp with e2 | body <;> simp only [hj] <;> exact ⟨_, rfl⟩
      · rw [if_neg h200]
        by_cases h401 : resp.status = 401
        · rw [if_pos h401]
          rcases hj : jsonOf resp with e2 | body <;> simp only [hj] <;> exact ⟨_, rfl⟩
        · rw [if_neg h401]
          rcases hj : jsonOf resp with e2 | body <;> simp only [hj] <;> exact ⟨_, rfl⟩
  · intro o s
    simp only [BackendTest.test_add_staff_without_auth, BackendTest.sessionReq]
    rcases h : o s.sent.length (BackendTest.noAuthReq s) with e | resp <;>
      simp only [BackendTest.noAuthReq] at h <;> simp only [h]
    · exact ⟨_, rfl⟩
    · by_cases h401 : resp.status = 401
      · rw [if_pos h401]
        exact ⟨_, rfl⟩
      · rw [if_neg h401]
        rcases hj : jsonOf resp with e2 | body <;> simp only [hj] <;> exact ⟨_, rfl⟩

/-- C2: in every execution of `backend_test.py`, `test_register_user` raises a
`NameError` (at the undefined `TEST_USER_FULL_NAME`) before attempting any
HTTP request; the exception is caught and recorded as a failed result,
`run_all_tests` returns `False` at the registration gate with that single
result and an empty request log, and the process exits with code 1 for every
oracle, i.e. regardless of the remote service. -/
theorem claim_C2 (o : Oracle) :
    BackendTest.test_register_user o BackendTest.init =
      (false, BackendTest.regFailState) ∧
    BackendTest.run_all_tests o = .ok (false, BackendTest.regFailState) ∧
    BackendTest.regFailState.sent = [] ∧
    BackendTest.regFailState.test_results =
      [⟨"User Registration", false,
        "Exception: name TEST_USER_FULL_NAME is not defined", none⟩] ∧
    BackendTest.mainExit o = 1 :=
  ⟨rfl, rfl, rfl, rfl, rfl⟩
